import Mathlib

/-!
Verification of the cc-statusline module framework.

The definitions below are a shallow embedding of the display modules in
`src/cc_statusline/modules/model.py` and
`src/cc_statusline/modules/time_modules.py`.  Python `datetime` values are
embedded as integer Unix timestamps (seconds), `datetime.now()` becomes an
explicit `now : ℤ` argument, and Python float arithmetic is embedded as exact
rational arithmetic (`ℚ`) with `int(...)` as truncation toward zero.
-/

namespace CCStatusline

/-- Rendering status of one module segment (`ModuleStatus` in `modules/base`). -/
inductive ModuleStatus where
  | SUCCESS
  | WARNING
  | ERROR
  | DISABLED
deriving DecidableEq

/-- The value a module produces per render cycle (`ModuleOutput`). -/
structure ModuleOutput where
  text : String
  icon : String
  color : String
  status : ModuleStatus
  tooltip : Option String := none
deriving DecidableEq

/-- A numeric-or-garbage value found under a `cost` key of the snapshot:
`num t` is a Unix timestamp the Python code can pass to
`datetime.fromtimestamp`, `invalid` is a value whose conversion raises
`ValueError`/`TypeError`. -/
inductive TsVal where
  | num (t : ℤ)
  | invalid
deriving DecidableEq

/-- The `cost` sub-mapping of the context snapshot; `none` models a missing
key (`dict.get` returning `None` / `in` returning `False`). -/
structure CostData where
  context_percentage : Option ℤ := none
  next_reset_time : Option TsVal := none
  block_start_time : Option TsVal := none
deriving DecidableEq

/-- The `tokens` sub-mapping of the context snapshot; a missing key defaults
to `0` exactly as `tokens_data.get("used", 0)` does. -/
structure TokensData where
  used : ℕ := 0
  limit : ℕ := 0
deriving DecidableEq

/-- Context snapshot: the keys the six derived-value modules read.  A missing
`model`/`plan` key is the empty string (`context.get("model", "")`), missing
sub-mappings are the all-default records (`context.get("cost", {})`). -/
structure Ctx where
  model : String := ""
  plan : String := ""
  cost : CostData := {}
  tokens : TokensData := {}
deriving DecidableEq

/-- Python `int(...)` applied to an exact rational: truncation toward zero. -/
def qtrunc (q : ℚ) : ℤ := if q < 0 then ⌈q⌉ else ⌊q⌋

/-- Python string repetition `c * n` for one character. -/
def repChar (c : Char) (n : ℕ) : String := String.mk (List.replicate n c)

/-- Python `str.lower()` (ASCII letters; the model names are ASCII). -/
def lowerStr (s : String) : String := String.mk (s.toList.map Char.toLower)

/-- Does `pat` occur at the start of the character list? -/
def startsWithL : List Char → List Char → Bool
  | [], _ => true
  | _ :: _, [] => false
  | p :: ps, c :: cs => p == c && startsWithL ps cs

/-- Does `pat` occur anywhere in the character list (Python `in`)? -/
def containsL (pat : List Char) : List Char → Bool
  | [] => pat.isEmpty
  | c :: cs => startsWithL pat (c :: cs) || containsL pat cs

/-- Python substring test `pat in s`. -/
def strContains (s pat : String) : Bool := containsL pat.toList s.toList

/-- Python `s.endswith(suf)`. -/
def strEndsWith (s suf : String) : Bool :=
  startsWithL suf.toList.reverse s.toList.reverse

/-- Python `str.split()` with no argument: split on whitespace runs, dropping
empty tokens.  `acc` carries the current token, reversed. -/
def splitWsAux : List Char → List Char → List String
  | [], acc => if acc.isEmpty then [] else [String.mk acc.reverse]
  | c :: cs, acc =>
    if c.isWhitespace then
      (if acc.isEmpty then [] else [String.mk acc.reverse]) ++ splitWsAux cs []
    else splitWsAux cs (c :: acc)

/-- Python `model.split()`. -/
def splitWs (s : String) : List String := splitWsAux s.toList []

/-- Split a string at newline characters, keeping empty pieces
(Python `s.split("\n")`). -/
def splitLinesAux : List Char → List Char → List String
  | [], acc => [String.mk acc.reverse]
  | c :: cs, acc =>
    if c = '\n' then String.mk acc.reverse :: splitLinesAux cs []
    else splitLinesAux cs (c :: acc)

/-- Python `s.split("\n")`. -/
def splitLines (s : String) : List String := splitLinesAux s.toList []

namespace ModelModule

/-- Internal state of `ModelModule`: `self._model` and `self._context`. -/
structure State where
  model : String := ""
  context : Ctx := {}
deriving DecidableEq

/-- `ModelModule._extract_model_name`. -/
def extract_model_name (ctx : Ctx) : String :=
  let model := ctx.model
  if model = "" then ""
  else
    let modelLower := lowerStr model
    if strContains modelLower "sonnet" then "Sonnet"
    else if strContains modelLower "opus" then "Opus"
    else if strContains modelLower "haiku" then "Haiku"
    else if strContains modelLower "claude" then
      match (splitWs model).find? (fun part => part.front.isDigit) with
      | some part => "Claude " ++ part
      | none => "Claude"
    else model

/-- `ModelModule.set_context`. -/
def set_context (st : State) (ctx : Ctx) : State :=
  { st with context := ctx, model := extract_model_name ctx }

/-- `ModelModule.get_output`. -/
def get_output (st : State) : ModuleOutput :=
  if st.model = "" then
    { text := "", icon := "", color := "", status := .DISABLED }
  else
    { text := st.model, icon := "🤖", color := "purple", status := .SUCCESS,
      tooltip := some ("当前模型: " ++ st.model) }

/-- `ModelModule.is_available` (`bool(self._model)`). -/
def is_available (st : State) : Bool := st.model ≠ ""

end ModelModule

namespace PlanModule

/-- Internal state of `PlanModule`: `self._plan` and `self._context`. -/
structure State where
  plan : String := ""
  context : Ctx := {}
deriving DecidableEq

/-- `PlanModule.set_context`. -/
def set_context (st : State) (ctx : Ctx) : State :=
  { st with context := ctx, plan := ctx.plan }

/-- `PlanModule.get_output`. -/
def get_output (st : State) : ModuleOutput :=
  if st.plan = "" then
    { text := "", icon := "", color := "", status := .DISABLED }
  else
    let planLower := lowerStr st.plan
    let ci : String × String :=
      if strContains planLower "pro" then ("gold", "⭐")
      else if strContains planLower "free" then ("blue", "🆓")
      else ("dim", "📋")
    { text := st.plan, icon := ci.2, color := ci.1, status := .SUCCESS,
      tooltip := some ("订阅计划: " ++ st.plan) }

/-- `PlanModule.is_available`. -/
def is_available (st : State) : Bool := st.plan ≠ ""

end PlanModule

namespace ContextPercentModule

/-- `self._warning_threshold`. -/
def warning_threshold : ℤ := 70

/-- `self._critical_threshold`. -/
def critical_threshold : ℤ := 90

/-- Internal state of `ContextPercentModule`. -/
structure State where
  percentage : ℤ := 0
  context : Ctx := {}
deriving DecidableEq

/-- `ContextPercentModule._calculate_percentage`.  NOTE: the Python token
branch `int((used / limit) * 100)` is evaluated in IEEE-754 doubles; this
definition embeds its exact-rational idealization, which is the documented
intent (`floor(100 * used / limit)`).  The double-faithful evaluation is
`pyPctOfTokens` below; the two differ on isolated inputs such as
`used = 29, limit = 100` (28 versus 29). -/
def calculate_percentage (ctx : Ctx) : ℤ :=
  match ctx.cost.context_percentage with
  | some p => p
  | none =>
    let used := ctx.tokens.used
    let limit := ctx.tokens.limit
    if limit > 0 then qtrunc (((used : ℚ) / (limit : ℚ)) * 100)
    else 0

/-- `ContextPercentModule.set_context`. -/
def set_context (st : State) (ctx : Ctx) : State :=
  { st with context := ctx, percentage := calculate_percentage ctx }

/-- The threshold-to-color/status branch of `ContextPercentModule.get_output`. -/
def classify (p : ℤ) : String × ModuleStatus :=
  if p ≥ critical_threshold then ("red", .ERROR)
  else if p ≥ warning_threshold then ("yellow", .WARNING)
  else ("green", .SUCCESS)

/-- `ContextPercentModule.get_output`. -/
def get_output (st : State) : ModuleOutput :=
  if st.percentage = 0 then
    { text := "", icon := "", color := "", status := .DISABLED }
  else
    let cs := classify st.percentage
    { text := toString st.percentage ++ "%", icon := "🧠", color := cs.1,
      status := cs.2,
      tooltip := some ("上下文使用: " ++ toString st.percentage ++ "%") }

/-- `ContextPercentModule.is_available` (`self._percentage > 0`). -/
def is_available (st : State) : Bool := st.percentage > 0

end ContextPercentModule

namespace ContextBarModule

/-- `self._bar_width`. -/
def bar_width : ℕ := 10

/-- `self._warning_threshold`. -/
def warning_threshold : ℤ := 70

/-- `self._critical_threshold`. -/
def critical_threshold : ℤ := 90

/-- Internal state of `ContextBarModule`. -/
structure State where
  percentage : ℤ := 0
  context : Ctx := {}
deriving DecidableEq

/-- `ContextBarModule._calculate_percentage` (duplicated in the source).
The same NOTE as on `ContextPercentModule.calculate_percentage` applies:
the token branch is the exact-rational idealization of the program's
double arithmetic, whose faithful evaluation is `pyPctOfTokens`. -/
def calculate_percentage (ctx : Ctx) : ℤ :=
  match ctx.cost.context_percentage with
  | some p => p
  | none =>
    let used := ctx.tokens.used
    let limit := ctx.tokens.limit
    if limit > 0 then qtrunc (((used : ℚ) / (limit : ℚ)) * 100)
    else 0

/-- `ContextBarModule.set_context`. -/
def set_context (st : State) (ctx : Ctx) : State :=
  { st with context := ctx, percentage := calculate_percentage ctx }

/-- `int((percentage / 100) * self._bar_width)` in `_render_bar`. -/
def filled_count (p : ℤ) : ℤ := qtrunc ((p : ℚ) / 100 * (bar_width : ℚ))

/-- `ContextBarModule._render_bar`. -/
def render_bar (p : ℤ) : String :=
  let filled := filled_count p
  let empty := (bar_width : ℤ) - filled
  "[" ++ repChar '█' filled.toNat ++ repChar '░' empty.toNat ++ "] " ++
    toString p ++ "%"

/-- The threshold-to-color/status branch of `ContextBarModule.get_output`. -/
def classify (p : ℤ) : String × ModuleStatus :=
  if p ≥ critical_threshold then ("red", .ERROR)
  else if p ≥ warning_threshold then ("yellow", .WARNING)
  else ("green", .SUCCESS)

/-- `ContextBarModule.get_output`. -/
def get_output (st : State) : ModuleOutput :=
  if st.percentage = 0 then
    { text := "", icon := "", color := "", status := .DISABLED }
  else
    let cs := classify st.percentage
    { text := render_bar st.percentage, icon := "🧠", color := cs.1,
      status := cs.2,
      tooltip := some ("上下文使用: " ++ toString st.percentage ++ "%") }

/-- `ContextBarModule.is_available`. -/
def is_available (st : State) : Bool := st.percentage > 0

end ContextBarModule

namespace ResetTimerModule

/-- The `datetime(now.year, now.month, now.day) + timedelta(days=1)` fallback
of `_extract_reset_time`, with the local-midnight day boundary embedded as the
Unix-epoch day boundary. -/
def next_midnight (now : ℤ) : ℤ := (now / 86400 + 1) * 86400

/-- Internal state of `ResetTimerModule`: `self._reset_time` (a timestamp or
`None`) and `self._context`. -/
structure State where
  reset_time : Option ℤ := none
  context : Ctx := {}
deriving DecidableEq

/-- `ResetTimerModule._extract_reset_time`.  A truthy numeric
`next_reset_time` is taken as a Unix timestamp; a falsy value (missing key or
`0`) and a value whose conversion raises both fall through to the
next-midnight default. -/
def extract_reset_time (ctx : Ctx) (now : ℤ) : Option ℤ :=
  match ctx.cost.next_reset_time with
  | some (.num t) => if t = 0 then some (next_midnight now) else some t
  | some .invalid => some (next_midnight now)
  | none => some (next_midnight now)

/-- `ResetTimerModule.set_context`. -/
def set_context (st : State) (ctx : Ctx) (now : ℤ) : State :=
  { st with context := ctx, reset_time := extract_reset_time ctx now }

/-- `ResetTimerModule._calculate_remaining`: `None` when no reset time is
known, otherwise the remaining seconds clamped below at zero. -/
def calculate_remaining (st : State) (now : ℤ) : Option ℤ :=
  match st.reset_time with
  | none => none
  | some r => if r - now < 0 then some 0 else some (r - now)

/-- `ResetTimerModule._format_duration` on a non-negative duration in
seconds (`divmod` by 3600 then by 60). -/
def format_duration (ts : ℕ) : String :=
  if ts / 3600 > 0 then
    toString (ts / 3600) ++ "h " ++ toString (ts % 3600 / 60) ++ "m"
  else if ts % 3600 / 60 > 0 then
    toString (ts % 3600 / 60) ++ "m " ++ toString (ts % 3600 % 60) ++ "s"
  else
    toString (ts % 3600 % 60) ++ "s"

/-- `ResetTimerModule.get_output`. -/
def get_output (st : State) (now : ℤ) : ModuleOutput :=
  match calculate_remaining st now with
  | none => { text := "", icon := "", color := "", status := .DISABLED }
  | some rem =>
    let formatted := format_duration rem.toNat
    let cs : String × ModuleStatus :=
      if rem < 300 then ("red", .WARNING)
      else if rem < 1800 then ("yellow", .SUCCESS)
      else ("green", .SUCCESS)
    { text := formatted, icon := "🔄", color := cs.1, status := cs.2,
      tooltip := some ("下次重置: " ++ formatted) }

/-- `ResetTimerModule.is_available` (`self._reset_time is not None`). -/
def is_available (st : State) : Bool := st.reset_time.isSome

end ResetTimerModule

namespace BlockUsageModule

/-- `self._block_duration_hours`. -/
def block_duration_hours : ℕ := 5

/-- Internal state of `BlockUsageModule`: `self._block_start` and
`self._context`. -/
structure State where
  block_start : Option ℤ := none
  context : Ctx := {}
deriving DecidableEq

/-- `BlockUsageModule.set_context`: a truthy numeric `block_start_time` is
stored; a value whose conversion raises resets the field to `None`; a falsy
value (missing key or `0`) leaves the previous value in place. -/
def set_context (st : State) (ctx : Ctx) : State :=
  let st' := { st with context := ctx }
  match ctx.cost.block_start_time with
  | some (.num t) => if t = 0 then st' else { st' with block_start := some t }
  | some .invalid => { st' with block_start := none }
  | none => st'

/-- `BlockUsageModule._calculate_usage`: elapsed fraction of the 5-hour
window as a percentage, `0` for negative elapsed, capped at `100`. -/
def calculate_usage (st : State) (now : ℤ) : ℚ :=
  match st.block_start with
  | none => 0
  | some start =>
    let elapsed : ℤ := now - start
    let total_duration : ℤ := block_duration_hours * 3600
    if elapsed < 0 then 0
    else min (((elapsed : ℚ) / (total_duration : ℚ)) * 100) 100

/-- Python `f"{q:.0f}"` rounding: nearest integer, ties to even. -/
def round_half_even (q : ℚ) : ℤ :=
  if q - ⌊q⌋ < 1 / 2 then ⌊q⌋
  else if q - ⌊q⌋ > 1 / 2 then ⌊q⌋ + 1
  else if ⌊q⌋ % 2 = 0 then ⌊q⌋ else ⌊q⌋ + 1

/-- Python `f"{q:.1f}"` on a non-negative rational. -/
def format_1f (q : ℚ) : String :=
  let r := round_half_even (q * 10)
  toString (r / 10) ++ "." ++ toString (r % 10)

/-- `bar_width = 8` in `BlockUsageModule._render_bar`. -/
def bar_width : ℕ := 8

/-- `int((percentage / 100) * bar_width)` in `_render_bar`. -/
def filled_count (q : ℚ) : ℤ := qtrunc (q / 100 * (bar_width : ℚ))

/-- `BlockUsageModule._render_bar`. -/
def render_bar (q : ℚ) : String :=
  let filled := filled_count q
  let empty := (bar_width : ℤ) - filled
  "[" ++ repChar '█' filled.toNat ++ repChar '░' empty.toNat ++ "] " ++
    toString (round_half_even q) ++ "%"

/-- `BlockUsageModule.get_output`. -/
def get_output (st : State) (now : ℤ) : ModuleOutput :=
  let usage := calculate_usage st now
  if usage ≤ 0 ∧ st.block_start = none then
    { text := "", icon := "", color := "", status := .DISABLED }
  else
    let formatted := render_bar usage
    let cs : String × ModuleStatus :=
      if usage ≥ 90 then ("red", .WARNING)
      else if usage ≥ 70 then ("yellow", .SUCCESS)
      else ("green", .SUCCESS)
    { text := formatted, icon := "⏳", color := cs.1, status := cs.2,
      tooltip := some ("计费窗口使用: " ++ format_1f usage ++ "%") }

/-- `BlockUsageModule.is_available` (`self._block_start is not None`). -/
def is_available (st : State) : Bool := st.block_start.isSome

end BlockUsageModule

namespace MCPStatusModule

/-- Modelled from the spec: the `MCPStatusModule` source file is not under
`src/` (only its unit tests are); a discovered server record carries a name,
a status string and a display command, per §6 of the spec and
`tests/unit/test_mcp_status.py`. -/
structure MCPServerInfo where
  name : String
  status : String
  command : String := ""
deriving DecidableEq

/-- Modelled from the spec: parsing of one line of status-command output of
the form `<name>[ (running)]`; the status defaults to `"unknown"` when the
running marker is absent. -/
def parse_server_line (line : String) : MCPServerInfo :=
  if strEndsWith line " (running)" then
    { name := String.mk (line.toList.take (line.toList.length - 10)),
      status := "running" }
  else
    { name := line, status := "unknown" }

/-- Modelled from the spec: line-oriented parsing of the whole status-command
output, one server per non-empty line. -/
def parse_command_output (out : String) : List MCPServerInfo :=
  ((splitLines out).filter (fun l => l != "")).map parse_server_line

/-- Modelled from the spec: the observable result of the external status
command — the executable may be missing (`FileNotFoundError`) or exit with a
return code and captured stdout. -/
inductive CommandResult where
  | notFound
  | exited (returncode : ℕ) (stdout : String)
deriving DecidableEq

/-- Modelled from the spec: `MCPStatusModule._get_from_claude_command` —
a missing or failing command yields zero servers, a successful one is parsed
line by line. -/
def get_from_claude_command (res : CommandResult) : List MCPServerInfo :=
  match res with
  | .notFound => []
  | .exited rc out => if rc = 0 then parse_command_output out else []

/-- Modelled from the spec: one entry of the `mcpServers` mapping of the JSON
configuration file, carrying `command` and `args`. -/
structure MCPConfigEntry where
  name : String
  command : String
  args : List String
deriving DecidableEq

/-- Modelled from the spec: `MCPStatusModule._parse_mcp_config` — `none`
models a file whose JSON fails to parse and yields zero servers; otherwise
the display command is the space-joined concatenation of `command` and
`args`. -/
def parse_mcp_config (json : Option (List MCPConfigEntry)) : List MCPServerInfo :=
  match json with
  | none => []
  | some entries =>
    entries.map fun e =>
      { name := e.name, status := "unknown",
        command := String.intercalate " " (e.command :: e.args) }

/-- Modelled from the spec: `MCPStatusModule.get_output` over the discovered
server list, following the repository's unit tests — no servers renders a
gray placeholder with `SUCCESS`, any `"error"` server renders red `ERROR`,
all running renders green `SUCCESS`, otherwise yellow `WARNING`. -/
def get_output (servers : List MCPServerInfo) : ModuleOutput :=
  if servers.isEmpty then
    { text := "无 MCP 服务器", icon := "🔌", color := "gray", status := .SUCCESS }
  else
    let total := servers.length
    let errors := (servers.filter (fun s => s.status == "error")).length
    let running := (servers.filter (fun s => s.status == "running")).length
    if errors > 0 then
      { text := toString errors ++ " 错误", icon := "🔴", color := "red",
        status := .ERROR }
    else if running = total then
      { text := toString running ++ "/" ++ toString total ++ " 运行中",
        icon := "🟢", color := "green", status := .SUCCESS }
    else
      { text := toString running ++ "/" ++ toString total ++ " 运行中",
        icon := "🟡", color := "yellow", status := .WARNING }

/-- Modelled from the spec: `MCPStatusModule.is_available` returns `True`
unconditionally (`tests/unit/test_mcp_status.py::test_is_available`). -/
def is_available : Bool := true

end MCPStatusModule

/-!
## IEEE-754 double evaluation of the token-percentage expression

The Python expression `int((used / limit) * 100)` runs in double precision:
`used / limit` is the correctly rounded (round to nearest, ties to even)
double of the exact ratio, the product with `100` is rounded the same way,
and `int` truncates toward zero.  The definitions below evaluate exactly
that pipeline with pure natural-number arithmetic (exact on the double's
normal range, which covers every value arising from token counts).
-/

/-- Round-half-even of the rational `n / d` (for `d > 0`) to an integer. -/
def rndNearEven (n d : ℕ) : ℕ :=
  let q := n / d
  let r := n % d
  if 2 * r < d then q
  else if d < 2 * r then q + 1
  else if q % 2 = 0 then q else q + 1

/-- Fueled `⌊log2 n⌋`; exact for `n ≥ 1` whenever `fuel ≥ n`. -/
def log2p : ℕ → ℕ → ℕ
  | 0, _ => 0
  | fuel + 1, n => if n ≤ 1 then 0 else log2p fuel (n / 2) + 1

/-- `⌊log2 n⌋` for `n ≥ 1`. -/
def nlog2 (n : ℕ) : ℕ := log2p n n

/-- `⌊log2 (a / b)⌋` of the exact ratio of two positive naturals.  For
`a < b` it is `-j` when `b = a * 2 ^ j` exactly and `-j - 1` otherwise,
where `j = ⌊log2 (b / a)⌋`. -/
def rlog2 (a b : ℕ) : ℤ :=
  if b ≤ a then (nlog2 (a / b) : ℤ)
  else
    let j := nlog2 (b / a)
    if b = a * 2 ^ j then -(j : ℤ) else -(j : ℤ) - 1

/-- Round the positive rational `a / b` to the nearest IEEE-754 double,
ties to even: the result `(m, e)` denotes the value `m * 2 ^ e` with
`2 ^ 52 ≤ m ≤ 2 ^ 53` normalized after a rounding carry. -/
def dblOfRat (a b : ℕ) : ℕ × ℤ :=
  let k := rlog2 a b
  let s : ℤ := 52 - k
  let m :=
    if 0 ≤ s then rndNearEven (a * 2 ^ s.toNat) b
    else rndNearEven a (b * 2 ^ (-s).toNat)
  if m = 2 ^ 53 then (2 ^ 52, k - 51) else (m, k - 52)

/-- The value the program computes for `int((u / l) * 100)`: divide with one
double rounding, multiply by the exactly representable `100` with a second
double rounding, truncate toward zero.  `u = 0` divides exactly to `0.0`;
the `l = 0` branch is unreachable under the code's `limit > 0` guard. -/
def pyPctOfTokens (u l : ℕ) : ℕ :=
  if u = 0 ∨ l = 0 then 0
  else
    let d1 := dblOfRat u l
    let d2 :=
      if 0 ≤ d1.2 then dblOfRat (100 * d1.1 * 2 ^ d1.2.toNat) 1
      else dblOfRat (100 * d1.1) (2 ^ (-d1.2).toNat)
    if 0 ≤ d2.2 then d2.1 * 2 ^ d2.2.toNat else d2.1 / 2 ^ (-d2.2).toNat

/-! ## Helper lemmas -/

lemma qtrunc_of_nonneg {q : ℚ} (h : 0 ≤ q) : qtrunc q = ⌊q⌋ :=
  if_neg (not_lt.2 h)

/-- Truncating the exact value of `(used / limit) * 100` is floor natural
division: `int((u / l) * 100) = 100 * u / l` for natural token counts. -/
lemma qtrunc_div_mul_hundred (u l : ℕ) :
    qtrunc (((u : ℚ) / (l : ℚ)) * 100) = ((100 * u / l : ℕ) : ℤ) := by
  have h0 : (0 : ℚ) ≤ ((u : ℚ) / (l : ℚ)) * 100 := by positivity
  have hq : ((u : ℚ) / (l : ℚ)) * 100 = ((100 * u : ℕ) : ℚ) / ((l : ℕ) : ℚ) := by
    push_cast
    ring
  rw [qtrunc_of_nonneg h0, hq, Rat.floor_natCast_div_natCast]
  exact_mod_cast (Int.ofNat_ediv (100 * u) l).symm

/-- Shared evaluation of both modules' `_calculate_percentage` on the
token-derived branch. -/
lemma calculate_percentage_tokens (ctx : Ctx)
    (h : ctx.cost.context_percentage = none) (hl : 0 < ctx.tokens.limit) :
    ContextPercentModule.calculate_percentage ctx =
      ((100 * ctx.tokens.used / ctx.tokens.limit : ℕ) : ℤ) := by
  unfold ContextPercentModule.calculate_percentage
  rw [h]
  simp only [if_pos hl]
  exact qtrunc_div_mul_hundred _ _

lemma bar_eq_pct_calculate (ctx : Ctx) :
    ContextBarModule.calculate_percentage ctx =
      ContextPercentModule.calculate_percentage ctx := by
  cases hc : ctx.cost.context_percentage <;>
    simp [ContextBarModule.calculate_percentage,
      ContextPercentModule.calculate_percentage, hc]

/-! ## Claims -/

/-- Claim C1 (code bug): at `used = 29`, `limit = 100` the program's token
branch `int((used / limit) * 100)`, evaluated in IEEE-754 double precision,
returns 28, while the claimed (and spec'd) `floor(100 * used / limit)` —
which the exact-rational `calculate_percentage` of this file implements —
is 29: the code under-reports the percentage by one on such inputs. -/
theorem c1_failing_input_eval :
    pyPctOfTokens 29 100 = 28 ∧
    ContextPercentModule.calculate_percentage
        { tokens := { used := 29, limit := 100 } } = 29 ∧
    (100 * 29 / 100 : ℕ) = 29 := by
  refine ⟨by decide, ?_, by decide⟩
  exact (calculate_percentage_tokens { tokens := { used := 29, limit := 100 } }
    rfl (by decide)).trans (by decide)

/-- Claim C2: both modules classify a percentage into the same three tiers
with inclusive upper-side boundaries: `p < 70` is success/green,
`70 ≤ p < 90` is warning/yellow, `p ≥ 90` is error/red; in particular 69 is
success, 70 is warning, 90 is error. -/
theorem c2_threshold_tiers :
    (∀ p : ℤ, ContextPercentModule.classify p = ContextBarModule.classify p) ∧
    (∀ p : ℤ, p < 70 →
        ContextPercentModule.classify p = ("green", .SUCCESS)) ∧
    (∀ p : ℤ, 70 ≤ p → p < 90 →
        ContextPercentModule.classify p = ("yellow", .WARNING)) ∧
    (∀ p : ℤ, 90 ≤ p →
        ContextPercentModule.classify p = ("red", .ERROR)) ∧
    ContextPercentModule.classify 69 = ("green", .SUCCESS) ∧
    ContextPercentModule.classify 70 = ("yellow", .WARNING) ∧
    ContextPercentModule.classify 90 = ("red", .ERROR) := by
  refine ⟨fun p => rfl, ?_, ?_, ?_, by decide, by decide, by decide⟩
  · intro p hp
    simp only [ContextPercentModule.classify,
      ContextPercentModule.critical_threshold,
      ContextPercentModule.warning_threshold]
    rw [if_neg (by omega), if_neg (by omega)]
  · intro p h1 h2
    simp only [ContextPercentModule.classify,
      ContextPercentModule.critical_threshold,
      ContextPercentModule.warning_threshold]
    rw [if_neg (by omega), if_pos (by omega)]
  · intro p h1
    simp only [ContextPercentModule.classify,
      ContextPercentModule.critical_threshold]
    rw [if_pos (by omega)]

/-- Witness for C2: percentage 50 is below 70 and classifies as
success/green. -/
theorem c2_witness :
    (50 : ℤ) < 70 ∧ ContextPercentModule.classify 50 = ("green", .SUCCESS) :=
  ⟨by decide, c2_threshold_tiers.2.1 50 (by decide)⟩

/-- Counterexample to C3: a percentage of exactly 0 computed from valid
inputs (`used = 0`, `limit = 1000`) is not treated as legitimate data — the
module renders the same `DISABLED` output as for an entirely empty snapshot
and reports itself unavailable. -/
theorem c3_counterexample :
    ContextPercentModule.is_available
        (ContextPercentModule.set_context {}
          { tokens := { used := 0, limit := 1000 } }) = false ∧
    (ContextPercentModule.get_output
        (ContextPercentModule.set_context {}
          { tokens := { used := 0, limit := 1000 } })).status
      = ModuleStatus.DISABLED ∧
    ContextPercentModule.get_output
        (ContextPercentModule.set_context {}
          { tokens := { used := 0, limit := 1000 } })
      = ContextPercentModule.get_output (ContextPercentModule.set_context {} {}) := by
  have h : ContextPercentModule.calculate_percentage
      { tokens := { used := 0, limit := 1000 } } = 0 :=
    (calculate_percentage_tokens _ rfl (by decide)).trans (by decide)
  have h2 : ContextPercentModule.calculate_percentage ({} : Ctx) = 0 := rfl
  refine ⟨?_, ?_, ?_⟩ <;>
    simp [ContextPercentModule.set_context, ContextPercentModule.is_available,
      ContextPercentModule.get_output, h, h2]

/-- Claim C3 (amended): for the snapshot-driven modules (model, plan,
context-percentage, context-bar, block-usage), an entirely absent upstream
signal yields a `DISABLED` output with empty text/icon/color and
`is_available() = false`; but a percentage of exactly 0 computed from valid
inputs (`used = 0` with `limit > 0`) is treated the same as no data (also
`DISABLED` and unavailable), and the MCP-status module, whose relevant
signal is the external command, stays available and renders a non-empty
gray `SUCCESS` placeholder when no servers are discovered. -/
theorem c3_amended_absent_signal_disabled :
    (∀ ctx : Ctx, ctx.model = "" →
        ModelModule.get_output (ModelModule.set_context {} ctx) =
          { text := "", icon := "", color := "", status := .DISABLED } ∧
        ModelModule.is_available (ModelModule.set_context {} ctx) = false) ∧
    (∀ ctx : Ctx, ctx.plan = "" →
        PlanModule.get_output (PlanModule.set_context {} ctx) =
          { text := "", icon := "", color := "", status := .DISABLED } ∧
        PlanModule.is_available (PlanModule.set_context {} ctx) = false) ∧
    (∀ ctx : Ctx, ctx.cost.context_percentage = none → ctx.tokens.limit = 0 →
        ContextPercentModule.get_output (ContextPercentModule.set_context {} ctx) =
          { text := "", icon := "", color := "", status := .DISABLED } ∧
        ContextPercentModule.is_available
          (ContextPercentModule.set_context {} ctx) = false) ∧
    (∀ ctx : Ctx, ctx.cost.context_percentage = none → ctx.tokens.limit = 0 →
        ContextBarModule.get_output (ContextBarModule.set_context {} ctx) =
          { text := "", icon := "", color := "", status := .DISABLED } ∧
        ContextBarModule.is_available (ContextBarModule.set_context {} ctx) = false) ∧
    (∀ (ctx : Ctx) (now : ℤ), ctx.cost.block_start_time = none →
        BlockUsageModule.get_output (BlockUsageModule.set_context {} ctx) now =
          { text := "", icon := "", color := "", status := .DISABLED } ∧
        BlockUsageModule.is_available (BlockUsageModule.set_context {} ctx) = false) ∧
    (∀ ctx : Ctx, ctx.cost.context_percentage = none → ctx.tokens.used = 0 →
        0 < ctx.tokens.limit →
        ContextPercentModule.get_output (ContextPercentModule.set_context {} ctx) =
          { text := "", icon := "", color := "", status := .DISABLED } ∧
        ContextPercentModule.is_available
          (ContextPercentModule.set_context {} ctx) = false) ∧
    (MCPStatusModule.get_output [] =
        { text := "无 MCP 服务器", icon := "🔌", color := "gray",
          status := .SUCCESS } ∧
      MCPStatusModule.is_available = true) := by
  refine ⟨?_, ?_, ?_, ?_, ?_, ?_, by decide, rfl⟩
  · intro ctx h
    constructor <;>
      simp [ModelModule.set_context, ModelModule.extract_model_name,
        ModelModule.get_output, ModelModule.is_available, h]
  · intro ctx h
    constructor <;>
      simp [PlanModule.set_context, PlanModule.get_output,
        PlanModule.is_available, h]
  · intro ctx h hl
    have hp : ContextPercentModule.calculate_percentage ctx = 0 := by
      unfold ContextPercentModule.calculate_percentage
      rw [h]
      simp [hl]
    constructor <;>
      simp [ContextPercentModule.set_context, ContextPercentModule.get_output,
        ContextPercentModule.is_available, hp]
  · intro ctx h hl
    have hp : ContextBarModule.calculate_percentage ctx = 0 := by
      rw [bar_eq_pct_calculate]
      unfold ContextPercentModule.calculate_percentage
      rw [h]
      simp [hl]
    constructor <;>
      simp [ContextBarModule.set_context, ContextBarModule.get_output,
        ContextBarModule.is_available, hp]
  · intro ctx now h
    constructor <;>
      simp [BlockUsageModule.set_context, BlockUsageModule.get_output,
        BlockUsageModule.calculate_usage, BlockUsageModule.is_available, h]
  · intro ctx h hu hl
    have hp : ContextPercentModule.calculate_percentage ctx = 0 := by
      rw [calculate_percentage_tokens ctx h hl, hu]
      simp
    constructor <;>
      simp [ContextPercentModule.set_context, ContextPercentModule.get_output,
        ContextPercentModule.is_available, hp]

/-- Witness for the amended C3: the empty snapshot disables the model
module. -/
theorem c3_witness :
    ({} : Ctx).model = "" ∧
    (ModelModule.get_output (ModelModule.set_context {} {}) =
        { text := "", icon := "", color := "", status := .DISABLED } ∧
      ModelModule.is_available (ModelModule.set_context {} {}) = false) :=
  ⟨rfl, c3_amended_absent_signal_disabled.1 {} rfl⟩

/-- Counterexample to C4: a snapshot carrying `cost.context_percentage = -5`
makes `ContextPercentModule.is_available()` false while `get_output()`
reports `SUCCESS` (green, text `"-5%"`), not `DISABLED`. -/
theorem c4_counterexample :
    ContextPercentModule.is_available
        (ContextPercentModule.set_context {}
          { cost := { context_percentage := some (-5) } }) = false ∧
    (ContextPercentModule.get_output
        (ContextPercentModule.set_context {}
          { cost := { context_percentage := some (-5) } })).status
      = ModuleStatus.SUCCESS := by
  decide

/-- Claim C4 (amended): `is_available() = false` implies
`get_output().status = DISABLED` for `ModelModule`, `PlanModule`,
`ResetTimerModule` and `BlockUsageModule` in every internal state, and for
`ContextPercentModule` and `ContextBarModule` in every state whose stored
percentage is non-negative; a snapshot carrying a negative
`cost.context_percentage` breaks the agreement for the two context
modules. -/
theorem c4_amended_unavailable_implies_disabled :
    (∀ st : ModelModule.State, ModelModule.is_available st = false →
        (ModelModule.get_output st).status = .DISABLED) ∧
    (∀ st : PlanModule.State, PlanModule.is_available st = false →
        (PlanModule.get_output st).status = .DISABLED) ∧
    (∀ st : ContextPercentModule.State, 0 ≤ st.percentage →
        ContextPercentModule.is_available st = false →
        (ContextPercentModule.get_output st).status = .DISABLED) ∧
    (∀ st : ContextBarModule.State, 0 ≤ st.percentage →
        ContextBarModule.is_available st = false →
        (ContextBarModule.get_output st).status = .DISABLED) ∧
    (∀ (st : ResetTimerModule.State) (now : ℤ),
        ResetTimerModule.is_available st = false →
        (ResetTimerModule.get_output st now).status = .DISABLED) ∧
    (∀ (st : BlockUsageModule.State) (now : ℤ),
        BlockUsageModule.is_available st = false →
        (BlockUsageModule.get_output st now).status = .DISABLED) := by
  refine ⟨?_, ?_, ?_, ?_, ?_, ?_⟩
  · intro st h
    simp only [ModelModule.is_available, decide_eq_false_iff_not,
      ne_eq, not_not] at h
    simp [ModelModule.get_output, h]
  · intro st h
    simp only [PlanModule.is_available, decide_eq_false_iff_not,
      ne_eq, not_not] at h
    simp [PlanModule.get_output, h]
  · intro st h0 h
    simp only [ContextPercentModule.is_available,
      decide_eq_false_iff_not, not_lt] at h
    have hz : st.percentage = 0 := le_antisymm h h0
    simp [ContextPercentModule.get_output, hz]
  · intro st h0 h
    simp only [ContextBarModule.is_available,
      decide_eq_false_iff_not, not_lt] at h
    have hz : st.percentage = 0 := le_antisymm h h0
    simp [ContextBarModule.get_output, hz]
  · intro st now h
    cases hrt : st.reset_time with
    | none => simp [ResetTimerModule.get_output,
        ResetTimerModule.calculate_remaining, hrt]
    | some r => simp [ResetTimerModule.is_available, hrt] at h
  · intro st now h
    cases hbs : st.block_start with
    | none => simp [BlockUsageModule.get_output,
        BlockUsageModule.calculate_usage, hbs]
    | some t => simp [BlockUsageModule.is_available, hbs] at h

/-- Witness for the amended C4: the initial context-percentage state has
percentage 0, is unavailable, and renders `DISABLED`. -/
theorem c4_witness :
    (0 : ℤ) ≤ ({} : ContextPercentModule.State).percentage ∧
    ContextPercentModule.is_available {} = false ∧
    (ContextPercentModule.get_output
        ({} : ContextPercentModule.State)).status = .DISABLED :=
  ⟨by decide, by decide,
    c4_amended_unavailable_implies_disabled.2.2.1 {} (by decide) (by decide)⟩

/-- Claim C5: the reset timer renders a duration of `h` hours, `m` minutes
and `s` seconds as `"‹h›h ‹m›m"` when `h > 0`, as `"‹m›m ‹s›s"` when `h = 0`
and `m > 0`, and as `"‹s›s"` otherwise; concretely 2h30m0s, 15m30s and 45s
render as `"2h 30m"`, `"15m 30s"` and `"45s"`, and a negative remaining
duration is clamped to zero, rendering `"0s"`. -/
theorem c5_timer_formatting :
    (∀ h m s : ℕ, 0 < h → m < 60 → s < 60 →
        ResetTimerModule.format_duration (h * 3600 + m * 60 + s) =
          toString h ++ "h " ++ toString m ++ "m") ∧
    (∀ m s : ℕ, 0 < m → m < 60 → s < 60 →
        ResetTimerModule.format_duration (m * 60 + s) =
          toString m ++ "m " ++ toString s ++ "s") ∧
    (∀ s : ℕ, s < 60 →
        ResetTimerModule.format_duration s = toString s ++ "s") ∧
    ResetTimerModule.format_duration 9000 = "2h 30m" ∧
    ResetTimerModule.format_duration 930 = "15m 30s" ∧
    ResetTimerModule.format_duration 45 = "45s" ∧
    (∀ r now : ℤ, r - now < 0 →
        ResetTimerModule.calculate_remaining { reset_time := some r } now =
          some 0 ∧
        (ResetTimerModule.get_output { reset_time := some r } now).text
          = "0s") := by
  refine ⟨?_, ?_, ?_, by decide, by decide, by decide, ?_⟩
  · intro h m s hh hm hs
    unfold ResetTimerModule.format_duration
    have e1 : (h * 3600 + m * 60 + s) / 3600 = h := by omega
    have e2 : (h * 3600 + m * 60 + s) % 3600 / 60 = m := by omega
    rw [e1, e2, if_pos hh]
  · intro m s hm hm60 hs
    unfold ResetTimerModule.format_duration
    have e1 : (m * 60 + s) / 3600 = 0 := by omega
    have e2 : (m * 60 + s) % 3600 / 60 = m := by omega
    have e3 : (m * 60 + s) % 3600 % 60 = s := by omega
    rw [e1, e2, e3, if_neg (by omega), if_pos hm]
  · intro s hs
    unfold ResetTimerModule.format_duration
    have e1 : s / 3600 = 0 := by omega
    have e2 : s % 3600 / 60 = 0 := by omega
    have e3 : s % 3600 % 60 = s := by omega
    rw [e1, e2, e3, if_neg (by omega), if_neg (by omega)]
  · intro r now h
    have hc : ResetTimerModule.calculate_remaining { reset_time := some r } now
        = some 0 := by
      simp [ResetTimerModule.calculate_remaining, h]
    refine ⟨hc, ?_⟩
    simp only [ResetTimerModule.get_output, hc]
    decide

/-- Witness for C5: a duration of 2 hours, 30 minutes, 0 seconds renders as
`"2h 30m"`. -/
theorem c5_witness :
    0 < 2 ∧ 30 < 60 ∧ 0 < 60 ∧
    ResetTimerModule.format_duration (2 * 3600 + 30 * 60 + 0) = "2h 30m" :=
  ⟨by decide, by decide, by decide,
    (c5_timer_formatting.1 2 30 0 (by decide) (by decide) (by decide)).trans
      (by decide)⟩

/-- Claim C6: model-name normalization tries the families sonnet, opus,
haiku in order on the lowercased string, first match winning; with no family
but `"claude"` present, the first whitespace-delimited token beginning with
a digit yields `"Claude ‹version›"`; with neither, the raw string is
returned unchanged; the empty string yields an empty result with the module
unavailable. -/
theorem c6_model_name_normalization :
    (∀ ctx : Ctx, ctx.model ≠ "" →
        strContains (lowerStr ctx.model) "sonnet" = true →
        ModelModule.extract_model_name ctx = "Sonnet") ∧
    (∀ ctx : Ctx, ctx.model ≠ "" →
        strContains (lowerStr ctx.model) "sonnet" = false →
        strContains (lowerStr ctx.model) "opus" = true →
        ModelModule.extract_model_name ctx = "Opus") ∧
    (∀ ctx : Ctx, ctx.model ≠ "" →
        strContains (lowerStr ctx.model) "sonnet" = false →
        strContains (lowerStr ctx.model) "opus" = false →
        strContains (lowerStr ctx.model) "haiku" = true →
        ModelModule.extract_model_name ctx = "Haiku") ∧
    (∀ (ctx : Ctx) (ver : String), ctx.model ≠ "" →
        strContains (lowerStr ctx.model) "sonnet" = false →
        strContains (lowerStr ctx.model) "opus" = false →
        strContains (lowerStr ctx.model) "haiku" = false →
        strContains (lowerStr ctx.model) "claude" = true →
        (splitWs ctx.model).find? (fun part => part.front.isDigit) = some ver →
        ModelModule.extract_model_name ctx = "Claude " ++ ver) ∧
    (∀ ctx : Ctx,
        strContains (lowerStr ctx.model) "sonnet" = false →
        strContains (lowerStr ctx.model) "opus" = false →
        strContains (lowerStr ctx.model) "haiku" = false →
        strContains (lowerStr ctx.model) "claude" = false →
        ModelModule.extract_model_name ctx = ctx.model) ∧
    ModelModule.extract_model_name { model := "claude-3-5-sonnet-20241022" }
      = "Sonnet" ∧
    ModelModule.extract_model_name { model := "claude-3-opus" } = "Opus" ∧
    ModelModule.extract_model_name { model := "claude 3" } = "Claude 3" ∧
    (ModelModule.extract_model_name { model := "" } = "" ∧
      ModelModule.is_available (ModelModule.set_context {} { model := "" })
        = false) := by
  refine ⟨?_, ?_, ?_, ?_, ?_, by decide, by decide, by decide, by decide, by decide⟩
  · intro ctx hne h1
    simp [ModelModule.extract_model_name, hne, h1]
  · intro ctx hne h1 h2
    simp [ModelModule.extract_model_name, hne, h1, h2]
  · intro ctx hne h1 h2 h3
    simp [ModelModule.extract_model_name, hne, h1, h2, h3]
  · intro ctx ver hne h1 h2 h3 h4 hfind
    simp [ModelModule.extract_model_name, hne, h1, h2, h3, h4, hfind]
  · intro ctx h1 h2 h3 h4
    by_cases hm : ctx.model = ""
    · simp [ModelModule.extract_model_name, hm]
    · simp [ModelModule.extract_model_name, hm, h1, h2, h3, h4]

/-- Witness for C6: `"My sonnet"` contains the sonnet family name and
normalizes to `"Sonnet"`. -/
theorem c6_witness :
    ({ model := "My sonnet" } : Ctx).model ≠ "" ∧
    strContains (lowerStr ({ model := "My sonnet" } : Ctx).model) "sonnet"
      = true ∧
    ModelModule.extract_model_name { model := "My sonnet" } = "Sonnet" :=
  ⟨by decide, by decide,
    c6_model_name_normalization.1 { model := "My sonnet" } (by decide)
      (by decide)⟩

lemma qtrunc_natCast_div (a b : ℕ) :
    qtrunc ((a : ℚ) / (b : ℚ)) = ((a / b : ℕ) : ℤ) := by
  have h0 : (0 : ℚ) ≤ (a : ℚ) / (b : ℚ) := by positivity
  rw [qtrunc_of_nonneg h0, Rat.floor_natCast_div_natCast]
  exact_mod_cast (Int.ofNat_ediv a b).symm

lemma repChar_length (c : Char) (n : ℕ) : (repChar c n).length = n := by
  simp [repChar]

/-- The context bar's filled-glyph computation on a non-negative percentage
is floor natural division by 100. -/
lemma context_filled_eq (p : ℤ) (hp : 0 ≤ p) :
    ContextBarModule.filled_count p = ((p.toNat * 10 / 100 : ℕ) : ℤ) := by
  have hq : (p : ℚ) / 100 * ((ContextBarModule.bar_width : ℕ) : ℚ) =
      ((p.toNat * 10 : ℕ) : ℚ) / ((100 : ℕ) : ℚ) := by
    have hpq : (p : ℚ) = ((p.toNat : ℕ) : ℚ) := by
      exact_mod_cast (Int.toNat_of_nonneg hp).symm
    unfold ContextBarModule.bar_width
    rw [hpq]
    push_cast
    ring
  unfold ContextBarModule.filled_count
  rw [hq, qtrunc_natCast_div]

/-- Claim C7: for every percentage in `[0, 100]` the bar's filled glyph
count is `floor(bar_width * p / 100)`, filled and empty glyph counts sum to
the bar width, the bar is full at 100 and empty at 0; the context bar uses
width 10 and the block-usage bar uses width 8. -/
theorem c7_bar_rendering :
    (∀ p : ℤ, 0 ≤ p → p ≤ 100 →
        ContextBarModule.filled_count p = ((p.toNat * 10 / 100 : ℕ) : ℤ) ∧
        (repChar '█' (ContextBarModule.filled_count p).toNat).length +
          (repChar '░' ((ContextBarModule.bar_width : ℤ) -
              ContextBarModule.filled_count p).toNat).length =
          ContextBarModule.bar_width) ∧
    ContextBarModule.filled_count 100 = 10 ∧
    ContextBarModule.filled_count 0 = 0 ∧
    (∀ q : ℚ, 0 ≤ q → q ≤ 100 →
        BlockUsageModule.filled_count q =
          ⌊(BlockUsageModule.bar_width : ℚ) * q / 100⌋ ∧
        (repChar '█' (BlockUsageModule.filled_count q).toNat).length +
          (repChar '░' ((BlockUsageModule.bar_width : ℤ) -
              BlockUsageModule.filled_count q).toNat).length =
          BlockUsageModule.bar_width) ∧
    BlockUsageModule.filled_count 100 = 8 ∧
    BlockUsageModule.filled_count 0 = 0 ∧
    ContextBarModule.bar_width = 10 ∧ BlockUsageModule.bar_width = 8 := by
  have hblock : ∀ q : ℚ, 0 ≤ q →
      BlockUsageModule.filled_count q =
        ⌊(BlockUsageModule.bar_width : ℚ) * q / 100⌋ := by
    intro q hq
    unfold BlockUsageModule.filled_count BlockUsageModule.bar_width
    have h0 : (0 : ℚ) ≤ q / 100 * ((8 : ℕ) : ℚ) := by positivity
    rw [qtrunc_of_nonneg h0]
    congr 1
    push_cast
    ring
  refine ⟨?_, ?_, ?_, ?_, ?_, ?_, rfl, rfl⟩
  · intro p h0 h100
    have he := context_filled_eq p h0
    refine ⟨he, ?_⟩
    have hb : p.toNat * 10 / 100 ≤ 10 := by omega
    rw [he, repChar_length, repChar_length]
    unfold ContextBarModule.bar_width
    omega
  · rw [context_filled_eq 100 (by decide)]
    decide
  · rw [context_filled_eq 0 (by decide)]
    decide
  · intro q h0 h100
    have he := hblock q h0
    refine ⟨he, ?_⟩
    have hf0 : 0 ≤ ⌊(BlockUsageModule.bar_width : ℚ) * q / 100⌋ :=
      Int.floor_nonneg.2 (by positivity)
    have hf8 : ⌊(BlockUsageModule.bar_width : ℚ) * q / 100⌋ ≤ 8 := by
      have hle : (BlockUsageModule.bar_width : ℚ) * q / 100 ≤ 8 := by
        unfold BlockUsageModule.bar_width
        rw [div_le_iff₀ (by norm_num)]
        push_cast
        linarith
      calc ⌊(BlockUsageModule.bar_width : ℚ) * q / 100⌋ ≤ ⌊(8 : ℚ)⌋ :=
            Int.floor_mono hle
        _ = 8 := by norm_num
    rw [he, repChar_length, repChar_length]
    unfold BlockUsageModule.bar_width at hf0 hf8 ⊢
    omega
  · rw [hblock 100 (by norm_num)]
    unfold BlockUsageModule.bar_width
    norm_num
  · rw [hblock 0 (by norm_num)]
    unfold BlockUsageModule.bar_width
    norm_num

/-- Witness for C7: at percentage 50 the context bar fills 5 of 10 glyphs. -/
theorem c7_witness :
    (0 : ℤ) ≤ 50 ∧ (50 : ℤ) ≤ 100 ∧ ContextBarModule.filled_count 50 = 5 :=
  ⟨by decide, by decide,
    (c7_bar_rendering.1 50 (by decide) (by decide)).1.trans (by decide)⟩

/-- Claim C8: block-window usage is the elapsed fraction of the 5-hour
window from the block-start timestamp as a percentage clamped to
`[0, 100]` — `0` for negative elapsed time, `100` at or beyond 18000
elapsed seconds, `elapsed * 100 / 18000` in between — and with no
block-start timestamp the module is unavailable and renders `DISABLED`,
even though the computed usage is then zero. -/
theorem c8_block_usage :
    (∀ (st : BlockUsageModule.State) (now : ℤ), st.block_start = none →
        BlockUsageModule.calculate_usage st now = 0 ∧
        BlockUsageModule.is_available st = false ∧
        (BlockUsageModule.get_output st now).status = .DISABLED) ∧
    (∀ t now : ℤ, now - t < 0 →
        BlockUsageModule.calculate_usage { block_start := some t } now = 0) ∧
    (∀ t now : ℤ, (18000 : ℤ) ≤ now - t →
        BlockUsageModule.calculate_usage { block_start := some t } now = 100) ∧
    (∀ t now : ℤ, 0 ≤ now - t → now - t ≤ 18000 →
        BlockUsageModule.calculate_usage { block_start := some t } now =
          ((now - t : ℤ) : ℚ) * 100 / 18000) ∧
    (∀ (st : BlockUsageModule.State) (now : ℤ),
        0 ≤ BlockUsageModule.calculate_usage st now ∧
        BlockUsageModule.calculate_usage st now ≤ 100) := by
  have hclamp : ∀ (st : BlockUsageModule.State) (now : ℤ),
      0 ≤ BlockUsageModule.calculate_usage st now ∧
      BlockUsageModule.calculate_usage st now ≤ 100 := by
    intro st now
    cases hbs : st.block_start with
    | none => simp [BlockUsageModule.calculate_usage, hbs]
    | some t =>
      simp only [BlockUsageModule.calculate_usage, hbs]
      by_cases he : now - t < 0
      · simp [he]
      · simp only [he, if_false, ite_false]
        constructor
        · apply le_min _ (by norm_num)
          have h0 : (0 : ℚ) ≤ ((now - t : ℤ) : ℚ) := by
            exact_mod_cast le_of_not_lt he
          positivity
        · exact min_le_right _ _
  refine ⟨?_, ?_, ?_, ?_, hclamp⟩
  · intro st now h
    refine ⟨?_, ?_, ?_⟩ <;>
      simp [BlockUsageModule.calculate_usage, BlockUsageModule.is_available,
        BlockUsageModule.get_output, h]
  · intro t now h
    simp [BlockUsageModule.calculate_usage, h]
  · intro t now h
    simp only [BlockUsageModule.calculate_usage,
      BlockUsageModule.block_duration_hours]
    rw [if_neg (by omega)]
    apply min_eq_right
    rw [div_mul_eq_mul_div, le_div_iff₀ (by push_cast; norm_num)]
    have h18 : ((18000 : ℤ) : ℚ) ≤ ((now - t : ℤ) : ℚ) := by exact_mod_cast h
    push_cast at h18 ⊢
    linarith
  · intro t now h0 h18
    simp only [BlockUsageModule.calculate_usage,
      BlockUsageModule.block_duration_hours]
    rw [if_neg (by omega)]
    have hle : ((now - t : ℤ) : ℚ) / ((((5 : ℕ) : ℤ) * 3600 : ℤ) : ℚ) * 100
        ≤ 100 := by
      rw [div_mul_eq_mul_div, div_le_iff₀ (by push_cast; norm_num)]
      have : ((now - t : ℤ) : ℚ) ≤ ((18000 : ℤ) : ℚ) := by exact_mod_cast h18
      push_cast at this ⊢
      linarith
    rw [min_eq_left hle]
    push_cast
    ring

/-- Witness for C8: a block that starts 100 seconds in the future gives a
usage of 0. -/
theorem c8_witness :
    (0 : ℤ) - 100 < 0 ∧
    BlockUsageModule.calculate_usage { block_start := some 100 } 0 = 0 :=
  ⟨by decide, c8_block_usage.2.1 100 0 (by decide)⟩

lemma startsWithL_append_self (l r : List Char) :
    startsWithL l (l ++ r) = true := by
  induction l with
  | nil => rfl
  | cons a as ih => simp [startsWithL, ih]

lemma strEndsWith_append (s t : String) : strEndsWith (s ++ t) t = true := by
  have hd : (s ++ t).toList = s.toList ++ t.toList := String.data_append s t
  rw [strEndsWith, hd, List.reverse_append]
  exact startsWithL_append_self _ _

/-- Claim C9: MCP server discovery returns zero servers (instead of raising)
for a missing or failing status command and for malformed JSON
configuration; a successful command's output lines of the form
`‹name› (running)` become servers with status `"running"`, and lines
without the marker become status `"unknown"`. -/
theorem c9_mcp_discovery :
    MCPStatusModule.parse_mcp_config none = [] ∧
    MCPStatusModule.get_from_claude_command .notFound = [] ∧
    (∀ (rc : ℕ) (out : String), rc ≠ 0 →
        MCPStatusModule.get_from_claude_command (.exited rc out) = []) ∧
    (∀ name : String,
        (MCPStatusModule.parse_server_line (name ++ " (running)")).status
          = "running" ∧
        (MCPStatusModule.parse_server_line (name ++ " (running)")).name
          = name) ∧
    (∀ line : String, strEndsWith line " (running)" = false →
        MCPStatusModule.parse_server_line line =
          { name := line, status := "unknown" }) ∧
    MCPStatusModule.parse_command_output
        "server1 (running)\nserver2\nserver3 (running)\n" =
      [{ name := "server1", status := "running" },
       { name := "server2", status := "unknown" },
       { name := "server3", status := "running" }] := by
  refine ⟨rfl, rfl, ?_, ?_, ?_, by decide⟩
  · intro rc out h
    simp [MCPStatusModule.get_from_claude_command, h]
  · intro name
    have hend := strEndsWith_append name " (running)"
    constructor
    · simp [MCPStatusModule.parse_server_line, hend]
    · simp only [MCPStatusModule.parse_server_line, hend, if_true, ite_true]
      have hd : (name ++ " (running)").toList
          = name.toList ++ " (running)".toList := String.data_append _ _
      rw [hd]
      have hlen : (name.toList ++ " (running)".toList).length - 10
          = name.toList.length := by
        simp
      rw [hlen, List.take_left]
      cases name
      rfl
  · intro line h
    simp [MCPStatusModule.parse_server_line, h]

/-- Witness for C9: a status command that exits with return code 1 yields
zero servers. -/
theorem c9_witness :
    (1 : ℕ) ≠ 0 ∧
    MCPStatusModule.get_from_claude_command (.exited 1 "boom") = [] :=
  ⟨by decide, c9_mcp_discovery.2.2.1 1 "boom" (by decide)⟩

lemma append_ne_empty_of_right (s t : String) (h : t ≠ "") : s ++ t ≠ "" := by
  intro e
  apply h
  have hd : s.data ++ t.data = [] := by
    rw [← String.data_append]
    exact congrArg String.data e
  exact String.ext (List.append_eq_nil.1 hd).2

lemma format_duration_ne_empty (ts : ℕ) :
    ResetTimerModule.format_duration ts ≠ "" := by
  unfold ResetTimerModule.format_duration
  split_ifs <;> exact append_ne_empty_of_right _ _ (by decide)

lemma reset_output_some (st : ResetTimerModule.State) (now r : ℤ)
    (h : st.reset_time = some r) :
    (ResetTimerModule.get_output st now).status ≠ ModuleStatus.DISABLED ∧
    (ResetTimerModule.get_output st now).text ≠ "" := by
  unfold ResetTimerModule.get_output ResetTimerModule.calculate_remaining
  rw [h]
  by_cases h1 : r - now < 0 <;>
    simp only [h1, if_true, if_false, ite_true, ite_false] <;>
    split_ifs <;>
    exact ⟨by simp, format_duration_ne_empty _⟩

/-- Claim C10: with no `cost.next_reset_time` key (or an unparsable value),
`set_context` substitutes the next midnight as the reset time, so the reset
timer never becomes unavailable: after any `set_context` call
`is_available()` is true and a non-empty countdown segment with a
non-`DISABLED` status is rendered. -/
theorem c10_reset_timer_fallback :
    ∀ (ctx : Ctx) (now : ℤ) (st : ResetTimerModule.State),
      (ResetTimerModule.extract_reset_time ctx now).isSome = true ∧
      ResetTimerModule.is_available
        (ResetTimerModule.set_context st ctx now) = true ∧
      (ResetTimerModule.get_output
          (ResetTimerModule.set_context st ctx now) now).status
        ≠ ModuleStatus.DISABLED ∧
      (ResetTimerModule.get_output
          (ResetTimerModule.set_context st ctx now) now).text ≠ "" := by
  intro ctx now st
  obtain ⟨r, hr⟩ : ∃ r, ResetTimerModule.extract_reset_time ctx now = some r := by
    cases h : ctx.cost.next_reset_time with
    | none =>
      exact ⟨ResetTimerModule.next_midnight now,
        by simp [ResetTimerModule.extract_reset_time, h]⟩
    | some v =>
      cases v with
      | invalid =>
        exact ⟨ResetTimerModule.next_midnight now,
          by simp [ResetTimerModule.extract_reset_time, h]⟩
      | num t =>
        by_cases ht : t = 0
        · exact ⟨ResetTimerModule.next_midnight now,
            by simp [ResetTimerModule.extract_reset_time, h, ht]⟩
        · exact ⟨t, by simp [ResetTimerModule.extract_reset_time, h, ht]⟩
  have hrt : (ResetTimerModule.set_context st ctx now).reset_time = some r := by
    simp [ResetTimerModule.set_context, hr]
  obtain ⟨h1, h2⟩ := reset_output_some _ now r hrt
  exact ⟨by simp [hr], by simp [ResetTimerModule.is_available, hrt], h1, h2⟩

end CCStatusline
